import Mathlib

/-! Shallow embedding of the connection classes of the pcdangio/ros-driver_modem
repository (src/tcp_connection.h/.cpp and src/udp_connection.h/.cpp), together
with proofs settling the specification claims about them.

Modelling conventions:
* A boost::asio socket or acceptor is modelled by Bool "open" flags; the
  acceptor additionally carries a "listening" flag (set only when the full
  open/bind/listen setup sequence of start_server succeeds).
* A std::function callback slot is modelled by a Bool "attached" flag; an
  invocation of a callback is recorded as an `Event` in the event list every
  operation returns.
* A C++ throw of std::runtime_error that escapes a completion handler is
  recorded as `Event.fatal`; a throw escaping start_server is an `Option.none`
  return value (the source has no try/catch there).
* Asynchronous operations are modelled by per-operation slots of type
  `PendingOp`: `armed` while the operation is outstanding, `cancelled` after
  the socket owning it was closed (boost::asio then completes it with the
  operation_aborted error), `idle` otherwise.  The spec guarantees at most one
  outstanding read/accept per connection, so one slot per operation suffices.
* The completion of an asynchronous operation is split into a `*_complete`
  wrapper (what boost::asio does before invoking the handler: consuming the
  outstanding operation, assigning the accepted socket, writing received bytes
  into the buffer, rewriting the UDP sender endpoint) and the `*_callback`
  handler translated line by line from the source.
* Machine integers (ports, addresses, byte values, lengths) are modelled as
  Nat; no arithmetic in the modelled code can overflow them.
-/

/-- Transport protocol tag, from include/driver_modem/protocol.h. -/
inductive protocol
  | TCP
  | UDP
  deriving DecidableEq, Repr

/-- A network endpoint (IP address and port), mirroring boost::asio endpoints.
Addresses are abstracted to Nat. -/
structure Endpoint where
  address : Nat
  port : Nat
  deriving DecidableEq, Repr

/-- The boost::system error codes the source discriminates on.  `success` is
the zero error code (C++ `!error`); `other` stands for every error code not
named by the source. -/
inductive ErrorCode
  | success
  | eof
  | connection_reset
  | connection_aborted
  | operation_aborted
  | broken_pipe
  | other
  deriving DecidableEq, Repr

/-- State of one asynchronous operation slot. -/
inductive PendingOp
  | idle
  | armed
  | cancelled
  deriving DecidableEq, Repr

/-- Closing a socket cancels an outstanding asynchronous operation on it. -/
def cancel_op : PendingOp → PendingOp
  | PendingOp.armed => PendingOp.cancelled
  | p => p

/-- Observable effects of the modelled code: callback invocations, datagram
sends, and a fatal (thrown) runtime error. -/
inductive Event
  | connected (port : Nat)
  | disconnected (port : Nat)
  | rx (p : protocol) (port : Nat) (payload : List Nat) (src_address : Nat)
  | tcp_sent (payload : List Nat)
  | udp_sent (payload : List Nat) (dest : Endpoint)
  | fatal
  deriving DecidableEq, Repr

/-- tcp_connection roles (tcp_connection.h `enum class role`). -/
inductive tcp_role
  | UNASSIGNED
  | SERVER
  | CLIENT
  deriving DecidableEq, Repr

/-- tcp_connection statuses (tcp_connection.h `enum class status`). -/
inductive tcp_status
  | DISCONNECTED
  | CONNECTED
  | PENDING
  deriving DecidableEq, Repr

/-- State of one tcp_connection object (tcp_connection.h member variables,
plus the modelled asio socket/acceptor state and operation slots). -/
structure tcp_connection where
  m_socket_open : Bool
  m_acceptor_open : Bool
  m_acceptor_listening : Bool
  m_local_endpoint : Endpoint
  m_remote_address : Nat
  m_buffer : List Nat
  m_buffer_size : Nat
  m_role : tcp_role
  m_status : tcp_status
  m_connected_callback : Bool
  m_disconnected_callback : Bool
  m_rx_callback : Bool
  m_accept_pending : PendingOp
  m_connect_pending : PendingOp
  m_rx_pending : PendingOp
  deriving DecidableEq, Repr

namespace tcp_connection

/-- The constructor tcp_connection::tcp_connection: default-constructed
(closed) socket and acceptor, freshly allocated buffer `b` (its contents are
indeterminate in C++, hence an arbitrary list here), role UNASSIGNED and
status DISCONNECTED. -/
def mk_connection (le : Endpoint) (b : List Nat) : tcp_connection :=
  { m_socket_open := false, m_acceptor_open := false, m_acceptor_listening := false,
    m_local_endpoint := le, m_remote_address := 0,
    m_buffer := b, m_buffer_size := b.length,
    m_role := tcp_role.UNASSIGNED, m_status := tcp_status.DISCONNECTED,
    m_connected_callback := false, m_disconnected_callback := false,
    m_rx_callback := false,
    m_accept_pending := PendingOp.idle, m_connect_pending := PendingOp.idle,
    m_rx_pending := PendingOp.idle }

/-- tcp_connection::async_accept: arm the asynchronous accept. -/
def async_accept (c : tcp_connection) : tcp_connection :=
  { c with m_accept_pending := PendingOp.armed }

/-- tcp_connection::async_rx: arm the asynchronous receive. -/
def async_rx (c : tcp_connection) : tcp_connection :=
  { c with m_rx_pending := PendingOp.armed }

/-- tcp_connection::update_status, translated line by line.  Returns the new
state and the callbacks raised. -/
def update_status (c : tcp_connection) (new_status : tcp_status) (signal : Bool) :
    tcp_connection × List Event :=
  if new_status ≠ c.m_status then
    let c1 := { c with m_status := new_status }
    match new_status with
    | tcp_status.DISCONNECTED =>
        let c2 := { c1 with m_role := tcp_role.UNASSIGNED }
        if signal ∧ c2.m_disconnected_callback then
          (c2, [Event.disconnected c2.m_local_endpoint.port])
        else
          (c2, [])
    | tcp_status.CONNECTED =>
        if signal ∧ c1.m_connected_callback then
          (c1, [Event.connected c1.m_local_endpoint.port])
        else
          (c1, [])
    | tcp_status.PENDING => (c1, [])
  else
    (c, [])

/-- tcp_connection::start_server.  `setup_throws` is the environment's choice
of whether one of the acceptor setup calls (set_option/bind/listen) throws;
opening an already-open acceptor always throws.  The source has no try/catch,
so a throw escapes: modelled as result `none`. -/
def start_server (c : tcp_connection) (setup_throws : Bool) :
    tcp_connection × List Event × Option Bool :=
  if c.m_status = tcp_status.DISCONNECTED then
    if c.m_acceptor_open then
      (c, [], none)
    else if setup_throws then
      ({ c with m_acceptor_open := true }, [], none)
    else
      let c1 := { c with m_acceptor_open := true, m_acceptor_listening := true }
      let c2 := async_accept c1
      let c3 := { c2 with m_role := tcp_role.SERVER }
      let r := update_status c3 tcp_status.PENDING true
      (r.1, r.2, some true)
  else
    (c, [], some false)

/-- tcp_connection::start_client.  All setup exceptions are caught: the source
rolls back with update_status(DISCONNECTED) and returns false.  Opening an
already-open socket always throws; `setup_throws` is the environment's choice
for the remaining setup calls (which run after the open succeeded, so the
socket stays open, exactly as in the source where the catch does not close
it). -/
def start_client (c : tcp_connection) (remote : Endpoint) (setup_throws : Bool) :
    tcp_connection × List Event × Bool :=
  if c.m_status = tcp_status.DISCONNECTED then
    if c.m_socket_open then
      let r := update_status c tcp_status.DISCONNECTED true
      (r.1, r.2, false)
    else if setup_throws then
      let c1 := { c with m_socket_open := true }
      let r := update_status c1 tcp_status.DISCONNECTED true
      (r.1, r.2, false)
    else
      let c1 := { c with m_socket_open := true, m_connect_pending := PendingOp.armed,
                         m_remote_address := remote.address }
      let c2 := { c1 with m_role := tcp_role.CLIENT }
      let r := update_status c2 tcp_status.PENDING true
      (r.1, r.2, true)
  else
    (c, [], false)

/-- tcp_connection::disconnect: close acceptor and socket (cancelling any
outstanding operations), then update_status(DISCONNECTED, false). -/
def disconnect (c : tcp_connection) : tcp_connection × List Event :=
  let c1 := { c with m_acceptor_open := false, m_acceptor_listening := false,
                     m_socket_open := false,
                     m_accept_pending := cancel_op c.m_accept_pending,
                     m_connect_pending := cancel_op c.m_connect_pending,
                     m_rx_pending := cancel_op c.m_rx_pending }
  update_status c1 tcp_status.DISCONNECTED false

/-- tcp_connection::attach_connected_callback. -/
def attach_connected_callback (c : tcp_connection) : tcp_connection :=
  { c with m_connected_callback := true }

/-- tcp_connection::attach_disconnected_callback. -/
def attach_disconnected_callback (c : tcp_connection) : tcp_connection :=
  { c with m_disconnected_callback := true }

/-- tcp_connection::attach_rx_callback. -/
def attach_rx_callback (c : tcp_connection) : tcp_connection :=
  { c with m_rx_callback := true }

/-- tcp_connection::tx.  `send_error` is the error code the synchronous send
reports to the environment; the source inspects it only for broken_pipe. -/
def tx (c : tcp_connection) (data : List Nat) (send_error : ErrorCode) :
    tcp_connection × List Event × Bool :=
  if c.m_status = tcp_status.CONNECTED then
    if send_error = ErrorCode.broken_pipe then
      let r := update_status c tcp_status.DISCONNECTED true
      (r.1, Event.tcp_sent data :: r.2, true)
    else
      (c, [Event.tcp_sent data], true)
  else
    (c, [], false)

/-- tcp_connection::accept_callback, translated line by line. -/
def accept_callback (c : tcp_connection) (error : ErrorCode) :
    tcp_connection × List Event :=
  if c.m_socket_open then
    if error = ErrorCode.success then
      let r := update_status c tcp_status.CONNECTED true
      (async_rx r.1, r.2)
    else
      (async_accept c, [])
  else
    (c, [])

/-- tcp_connection::connect_callback, translated line by line. -/
def connect_callback (c : tcp_connection) (error : ErrorCode) :
    tcp_connection × List Event :=
  if c.m_socket_open then
    if error = ErrorCode.success then
      let r := update_status c tcp_status.CONNECTED true
      (async_rx r.1, r.2)
    else
      update_status c tcp_status.DISCONNECTED true
  else
    (c, [])

/-- tcp_connection::rx_callback, translated line by line.  On success the
payload handed to the callback is a fresh copy of the first `bytes_read`
bytes of the internal buffer (the memcpy into output_array). -/
def rx_callback (c : tcp_connection) (error : ErrorCode) (bytes_read : Nat) :
    tcp_connection × List Event :=
  if c.m_socket_open then
    if error = ErrorCode.success then
      let evs :=
        if c.m_rx_callback then
          [Event.rx protocol.TCP c.m_local_endpoint.port
            (c.m_buffer.take bytes_read) c.m_remote_address]
        else
          []
      (async_rx c, evs)
    else if error = ErrorCode.eof ∨ error = ErrorCode.connection_reset ∨
            error = ErrorCode.connection_aborted then
      update_status c tcp_status.DISCONNECTED true
    else if error ≠ ErrorCode.operation_aborted then
      (c, [Event.fatal])
    else
      (c, [])
  else
    (c, [])

/-- Delivery of an accept completion by the event loop.  A cancelled accept
completes with operation_aborted only; an armed accept can complete with
success only while the acceptor is listening and the peer socket is not
already open (boost::asio fails the accept otherwise), and a successful
accept assigns the accepted peer connection into m_socket, opening it. -/
def accept_complete (c : tcp_connection) (error : ErrorCode) (peer_address : Nat) :
    Option (tcp_connection × List Event) :=
  match c.m_accept_pending with
  | PendingOp.idle => none
  | PendingOp.cancelled =>
      if error = ErrorCode.operation_aborted then
        some (accept_callback { c with m_accept_pending := PendingOp.idle } error)
      else none
  | PendingOp.armed =>
      if error = ErrorCode.success then
        if c.m_acceptor_listening ∧ ¬ c.m_socket_open then
          some (accept_callback
            { c with m_accept_pending := PendingOp.idle, m_socket_open := true,
                     m_remote_address := peer_address } error)
        else none
      else if error = ErrorCode.operation_aborted then none
      else some (accept_callback { c with m_accept_pending := PendingOp.idle } error)

/-- Delivery of a connect completion by the event loop.  A cancelled connect
completes with operation_aborted only; an armed one never does. -/
def connect_complete (c : tcp_connection) (error : ErrorCode) :
    Option (tcp_connection × List Event) :=
  match c.m_connect_pending with
  | PendingOp.idle => none
  | PendingOp.cancelled =>
      if error = ErrorCode.operation_aborted then
        some (connect_callback { c with m_connect_pending := PendingOp.idle } error)
      else none
  | PendingOp.armed =>
      if error = ErrorCode.operation_aborted then none
      else some (connect_callback { c with m_connect_pending := PendingOp.idle } error)

/-- Delivery of a read completion by the event loop.  On success boost::asio
has written the received bytes into the front of the internal buffer before
the handler runs. -/
def rx_complete (c : tcp_connection) (error : ErrorCode) (data : List Nat) :
    Option (tcp_connection × List Event) :=
  match c.m_rx_pending with
  | PendingOp.idle => none
  | PendingOp.cancelled =>
      if error = ErrorCode.operation_aborted then
        some (rx_callback { c with m_rx_pending := PendingOp.idle } error data.length)
      else none
  | PendingOp.armed =>
      if error = ErrorCode.success then
        if data.length ≤ c.m_buffer_size then
          some (rx_callback
            { c with m_rx_pending := PendingOp.idle,
                     m_buffer := data ++ c.m_buffer.drop data.length }
            error data.length)
        else none
      else if error = ErrorCode.operation_aborted then none
      else some (rx_callback { c with m_rx_pending := PendingOp.idle } error data.length)

end tcp_connection

/-- State of one udp_connection object (udp_connection.h member variables plus
the modelled asio socket state and receive slot).  The constructor opens and
binds the socket, so it starts open. -/
structure udp_connection where
  m_socket_open : Bool
  m_local_endpoint : Endpoint
  m_remote_endpoint : Endpoint
  m_buffer : List Nat
  m_buffer_size : Nat
  m_rx_callback : Bool
  m_rx_pending : PendingOp
  deriving DecidableEq, Repr

namespace udp_connection

/-- The constructor udp_connection::udp_connection: socket opened and bound to
the local endpoint, remote endpoint stored, buffer `b` freshly allocated with
indeterminate contents. -/
def mk_connection (le re : Endpoint) (b : List Nat) : udp_connection :=
  { m_socket_open := true, m_local_endpoint := le, m_remote_endpoint := re,
    m_buffer := b, m_buffer_size := b.length,
    m_rx_callback := false, m_rx_pending := PendingOp.idle }

/-- udp_connection::async_rx: arm the asynchronous receive-from. -/
def async_rx (c : udp_connection) : udp_connection :=
  { c with m_rx_pending := PendingOp.armed }

/-- udp_connection::connect: just starts the receive loop. -/
def connect (c : udp_connection) : udp_connection :=
  async_rx c

/-- udp_connection::disconnect: close the socket, cancelling the outstanding
receive. -/
def disconnect (c : udp_connection) : udp_connection :=
  { c with m_socket_open := false, m_rx_pending := cancel_op c.m_rx_pending }

/-- udp_connection::attach_rx_callback. -/
def attach_rx_callback (c : udp_connection) : udp_connection :=
  { c with m_rx_callback := true }

/-- udp_connection::tx: send_to the CURRENT m_remote_endpoint (which
async_receive_from rewrites on every received datagram).  The source returns
void and inspects no error. -/
def tx (c : udp_connection) (data : List Nat) : udp_connection × List Event :=
  (c, [Event.udp_sent data c.m_remote_endpoint])

/-- udp_connection::rx_callback, translated line by line.  Unlike the TCP
handler it has no is_open guard. -/
def rx_callback (c : udp_connection) (error : ErrorCode) (bytes_read : Nat) :
    udp_connection × List Event :=
  if error = ErrorCode.success ∧ c.m_rx_callback then
    (async_rx c,
     [Event.rx protocol.UDP c.m_local_endpoint.port
       (c.m_buffer.take bytes_read) c.m_remote_endpoint.address])
  else if error ≠ ErrorCode.operation_aborted then
    (c, [Event.fatal])
  else
    (c, [])

/-- Delivery of a receive-from completion by the event loop.  On success
boost::asio has stored the sender in m_remote_endpoint (the endpoint reference
passed to async_receive_from) and written the received bytes into the front of
the buffer before the handler runs. -/
def rx_complete (c : udp_connection) (error : ErrorCode) (sender : Endpoint)
    (data : List Nat) : Option (udp_connection × List Event) :=
  match c.m_rx_pending with
  | PendingOp.idle => none
  | PendingOp.cancelled =>
      if error = ErrorCode.operation_aborted then
        some (rx_callback { c with m_rx_pending := PendingOp.idle } error data.length)
      else none
  | PendingOp.armed =>
      if error = ErrorCode.success then
        if data.length ≤ c.m_buffer_size then
          some (rx_callback
            { c with m_rx_pending := PendingOp.idle,
                     m_remote_endpoint := sender,
                     m_buffer := data ++ c.m_buffer.drop data.length }
            error data.length)
        else none
      else if error = ErrorCode.operation_aborted then none
      else some (rx_callback { c with m_rx_pending := PendingOp.idle } error data.length)

end udp_connection

/-- The operations the environment (driver and event loop) can apply to one
tcp_connection, with the environment's nondeterministic choices (error codes,
received bytes, setup exceptions) as arguments. -/
inductive TcpAct
  | attach_connected
  | attach_disconnected
  | attach_rx
  | act_start_server (setup_throws : Bool)
  | act_start_client (remote : Endpoint) (setup_throws : Bool)
  | act_disconnect
  | act_tx (data : List Nat) (send_error : ErrorCode)
  | act_accept_complete (error : ErrorCode) (peer_address : Nat)
  | act_connect_complete (error : ErrorCode)
  | act_rx_complete (error : ErrorCode) (data : List Nat)

namespace tcp_connection

/-- One step of a tcp_connection under an environment action.  `none` means
the action cannot occur in this state (no such completion is deliverable). -/
def tcp_step (c : tcp_connection) : TcpAct → Option (tcp_connection × List Event)
  | TcpAct.attach_connected => some (attach_connected_callback c, [])
  | TcpAct.attach_disconnected => some (attach_disconnected_callback c, [])
  | TcpAct.attach_rx => some (attach_rx_callback c, [])
  | TcpAct.act_start_server th => some ((start_server c th).1, (start_server c th).2.1)
  | TcpAct.act_start_client r th => some ((start_client c r th).1, (start_client c r th).2.1)
  | TcpAct.act_disconnect => some (disconnect c)
  | TcpAct.act_tx d e => some ((tx c d e).1, (tx c d e).2.1)
  | TcpAct.act_accept_complete e pa => accept_complete c e pa
  | TcpAct.act_connect_complete e => connect_complete c e
  | TcpAct.act_rx_complete e d => rx_complete c e d

/-- The states a tcp_connection can reach from construction under any
sequence of environment actions. -/
inductive tcp_reachable : tcp_connection → Prop
  | construct (le : Endpoint) (b : List Nat) : tcp_reachable (mk_connection le b)
  | step {c c' : tcp_connection} {evs : List Event} (a : TcpAct) :
      tcp_reachable c → tcp_step c a = some (c', evs) → tcp_reachable c'

/-- The inductive invariant of the tcp_connection state machine.  The first
conjunct is the role/status coupling of the spec; the rest are auxiliary
facts about the outstanding-operation slots needed to make it inductive. -/
def tcpInv (c : tcp_connection) : Prop :=
  (c.m_role = tcp_role.UNASSIGNED ↔ c.m_status = tcp_status.DISCONNECTED) ∧
  (c.m_connect_pending = PendingOp.armed →
     c.m_status = tcp_status.PENDING ∧ c.m_role = tcp_role.CLIENT) ∧
  (c.m_accept_pending = PendingOp.armed → c.m_acceptor_listening = true →
     c.m_socket_open = false →
     c.m_status = tcp_status.PENDING ∧ c.m_role = tcp_role.SERVER) ∧
  (c.m_rx_pending = PendingOp.armed → c.m_socket_open = true) ∧
  (c.m_connect_pending = PendingOp.armed → c.m_rx_pending ≠ PendingOp.armed)

end tcp_connection

lemma cancel_op_ne_armed (p : PendingOp) : cancel_op p ≠ PendingOp.armed := by
  cases p <;> simp [cancel_op]

namespace tcp_connection

/-- The state part of update_status as a single record expression. -/
lemma update_status_fst (c : tcp_connection) (s : tcp_status) (sig : Bool) :
    (update_status c s sig).1 =
      { c with m_status := s,
               m_role := if s = tcp_status.DISCONNECTED ∧ ¬ s = c.m_status
                         then tcp_role.UNASSIGNED else c.m_role } := by
  by_cases h : s = c.m_status
  · subst h
    simp [update_status]
  · rcases s <;> simp [update_status, h] <;> split_ifs <;> rfl

/-- The invariant holds at construction. -/
lemma tcpInv_mk (le : Endpoint) (b : List Nat) : tcpInv (mk_connection le b) := by
  simp [tcpInv, mk_connection]

end tcp_connection

namespace tcp_connection

/-- The state part of accept_callback as a conditional expression. -/
lemma accept_callback_fst (c : tcp_connection) (e : ErrorCode) :
    (accept_callback c e).1 =
      if c.m_socket_open then
        if e = ErrorCode.success then
          async_rx (update_status c tcp_status.CONNECTED true).1
        else async_accept c
      else c := by
  unfold accept_callback
  split_ifs <;> rfl

/-- The state part of connect_callback as a conditional expression. -/
lemma connect_callback_fst (c : tcp_connection) (e : ErrorCode) :
    (connect_callback c e).1 =
      if c.m_socket_open then
        if e = ErrorCode.success then
          async_rx (update_status c tcp_status.CONNECTED true).1
        else (update_status c tcp_status.DISCONNECTED true).1
      else c := by
  unfold connect_callback
  split_ifs <;> rfl

/-- The state part of rx_callback as a conditional expression. -/
lemma rx_callback_fst (c : tcp_connection) (e : ErrorCode) (n : Nat) :
    (rx_callback c e n).1 =
      if c.m_socket_open then
        if e = ErrorCode.success then async_rx c
        else if e = ErrorCode.eof ∨ e = ErrorCode.connection_reset ∨
                e = ErrorCode.connection_aborted then
          (update_status c tcp_status.DISCONNECTED true).1
        else c
      else c := by
  unfold rx_callback
  split_ifs <;> rfl

end tcp_connection

namespace tcp_connection

/-- Every environment step preserves the tcp_connection invariant. -/
lemma tcpInv_step {c c' : tcp_connection} {evs : List Event} (a : TcpAct)
    (hinv : tcpInv c) (hstep : tcp_step c a = some (c', evs)) : tcpInv c' := by
  obtain ⟨h1, h2, h3, h4, h5⟩ := hinv
  cases a with
  | attach_connected =>
      simp only [tcp_step, Option.some.injEq, Prod.mk.injEq] at hstep
      obtain ⟨hc, -⟩ := hstep
      subst hc
      exact ⟨h1, h2, h3, h4, h5⟩
  | attach_disconnected =>
      simp only [tcp_step, Option.some.injEq, Prod.mk.injEq] at hstep
      obtain ⟨hc, -⟩ := hstep
      subst hc
      exact ⟨h1, h2, h3, h4, h5⟩
  | attach_rx =>
      simp only [tcp_step, Option.some.injEq, Prod.mk.injEq] at hstep
      obtain ⟨hc, -⟩ := hstep
      subst hc
      exact ⟨h1, h2, h3, h4, h5⟩
  | act_start_server th =>
      simp only [tcp_step, Option.some.injEq, Prod.mk.injEq] at hstep
      obtain ⟨hc, -⟩ := hstep
      subst hc
      unfold start_server
      split_ifs with hst hacc hth
      · exact ⟨h1, h2, h3, h4, h5⟩
      · exact ⟨h1, h2, h3, h4, h5⟩
      · have hcp : c.m_connect_pending ≠ PendingOp.armed := by
          intro hx
          have hpend := (h2 hx).1
          rw [hst] at hpend
          exact absurd hpend (by decide)
        refine ⟨?_, ?_, ?_, ?_, ?_⟩
        · simp [update_status_fst, async_accept]
        · simp [update_status_fst, async_accept, hcp]
        · simp [update_status_fst, async_accept]
        · simpa [update_status_fst, async_accept] using h4
        · simp [update_status_fst, async_accept, hcp]
      · exact ⟨h1, h2, h3, h4, h5⟩
  | act_start_client r th =>
      simp only [tcp_step, Option.some.injEq, Prod.mk.injEq] at hstep
      obtain ⟨hc, -⟩ := hstep
      subst hc
      unfold start_client
      split_ifs with hst hsock hth
      · have hro : c.m_role = tcp_role.UNASSIGNED := h1.mpr hst
        have hcp : c.m_connect_pending ≠ PendingOp.armed := by
          intro hx
          have hpend := (h2 hx).1
          rw [hst] at hpend
          exact absurd hpend (by decide)
        refine ⟨?_, ?_, ?_, ?_, ?_⟩
        · simp [update_status_fst, hst, hro]
        · simp [update_status_fst, hcp]
        · intro ha hl hs
          simp only [update_status_fst] at hs
          have hsock' : c.m_socket_open = true := hsock
          rw [hs] at hsock'
          exact absurd hsock' (by decide)
        · simpa [update_status_fst] using h4
        · simp [update_status_fst, hcp]
      · have hro : c.m_role = tcp_role.UNASSIGNED := h1.mpr hst
        have hcp : c.m_connect_pending ≠ PendingOp.armed := by
          intro hx
          have hpend := (h2 hx).1
          rw [hst] at hpend
          exact absurd hpend (by decide)
        refine ⟨?_, ?_, ?_, ?_, ?_⟩
        · simp [update_status_fst, hst, hro]
        · simp [update_status_fst, hcp]
        · simp [update_status_fst]
        · simp [update_status_fst]
        · simp [update_status_fst, hcp]
      · have hrx : c.m_rx_pending ≠ PendingOp.armed := fun hx => hsock (h4 hx)
        refine ⟨?_, ?_, ?_, ?_, ?_⟩ <;> simp [update_status_fst, hrx]
      · exact ⟨h1, h2, h3, h4, h5⟩
  | act_disconnect =>
      simp only [tcp_step, Option.some.injEq] at hstep
      have hc := congrArg Prod.fst hstep
      dsimp only at hc
      subst hc
      refine ⟨?_, ?_, ?_, ?_, ?_⟩
      · simp only [disconnect, update_status_fst]
        by_cases hd : tcp_status.DISCONNECTED = c.m_status
        · simp [hd.symm, h1.mpr hd.symm]
        · simp [hd]
      · simp [disconnect, update_status_fst, cancel_op_ne_armed]
      · simp [disconnect, update_status_fst, cancel_op_ne_armed]
      · simp [disconnect, update_status_fst, cancel_op_ne_armed]
      · simp [disconnect, update_status_fst, cancel_op_ne_armed]
  | act_tx d e =>
      simp only [tcp_step, Option.some.injEq, Prod.mk.injEq] at hstep
      obtain ⟨hc, -⟩ := hstep
      subst hc
      unfold tx
      split_ifs with hst hbp
      · have hcp : c.m_connect_pending ≠ PendingOp.armed := by
          intro hx
          have hpend := (h2 hx).1
          rw [hst] at hpend
          exact absurd hpend (by decide)
        refine ⟨?_, ?_, ?_, ?_, ?_⟩
        · simp [update_status_fst, hst]
        · simp [update_status_fst, hcp]
        · intro ha hl hs
          simp only [update_status_fst] at ha hl hs
          have hpend := (h3 ha hl hs).1
          rw [hst] at hpend
          exact absurd hpend (by decide)
        · simpa [update_status_fst] using h4
        · simp [update_status_fst, hcp]
      · exact ⟨h1, h2, h3, h4, h5⟩
      · exact ⟨h1, h2, h3, h4, h5⟩
  | act_accept_complete e pa =>
      simp only [tcp_step] at hstep
      cases hap : c.m_accept_pending with
      | idle =>
          simp only [accept_complete, hap] at hstep
          exact Option.noConfusion hstep
      | cancelled =>
          simp only [accept_complete, hap] at hstep
          split_ifs at hstep with he
          rw [Option.some.injEq] at hstep
          have hc := congrArg Prod.fst hstep
          dsimp only at hc
          subst hc
          subst he
          by_cases hsk : c.m_socket_open = true
          · have hsk1 : ({ c with m_accept_pending := PendingOp.idle } :
                tcp_connection).m_socket_open = true := hsk
            rw [accept_callback_fst, if_pos hsk1,
               if_neg (by decide : ¬(ErrorCode.operation_aborted = ErrorCode.success))]
            refine ⟨h1, h2, ?_, h4, h5⟩
            intro ha hl hs
            have hs' : c.m_socket_open = false := hs
            rw [hs'] at hsk
            exact absurd hsk (by decide)
          · have hsk1 : ¬ ({ c with m_accept_pending := PendingOp.idle } :
                tcp_connection).m_socket_open = true := hsk
            rw [accept_callback_fst, if_neg hsk1]
            refine ⟨h1, h2, ?_, h4, h5⟩
            intro ha
            exact absurd (show PendingOp.idle = PendingOp.armed from ha) (by decide)
      | armed =>
          simp only [accept_complete, hap] at hstep
          split_ifs at hstep with hsucc hcond he
          · -- successful accept
            rw [Option.some.injEq] at hstep
            have hc := congrArg Prod.fst hstep
            dsimp only at hc
            subst hc
            subst hsucc
            have hl : c.m_acceptor_listening = true := hcond.1
            have hs : c.m_socket_open = false := by simpa using hcond.2
            obtain ⟨hpend, hserv⟩ := h3 hap hl hs
            have hcp : c.m_connect_pending ≠ PendingOp.armed := by
              intro hx
              have hcli := (h2 hx).2
              rw [hserv] at hcli
              exact absurd hcli (by decide)
            have hsk1 : ({ c with m_accept_pending := PendingOp.idle, m_socket_open := true, m_remote_address := pa } : tcp_connection).m_socket_open = true := rfl
            rw [accept_callback_fst, if_pos hsk1, if_pos rfl]
            refine ⟨?_, ?_, ?_, ?_, ?_⟩ <;>
              simp [update_status_fst, async_rx, hpend, hserv, hcp]
          · -- errored accept: the accept is re-armed
            rw [Option.some.injEq] at hstep
            have hc := congrArg Prod.fst hstep
            dsimp only at hc
            subst hc
            by_cases hsk : c.m_socket_open = true
            · have hsk1 : ({ c with m_accept_pending := PendingOp.idle } :
                  tcp_connection).m_socket_open = true := hsk
              rw [accept_callback_fst, if_pos hsk1, if_neg hsucc]
              refine ⟨h1, h2, ?_, h4, h5⟩
              intro ha hl hs
              have hs' : c.m_socket_open = false := hs
              rw [hs'] at hsk
              exact absurd hsk (by decide)
            · have hsk1 : ¬ ({ c with m_accept_pending := PendingOp.idle } :
                  tcp_connection).m_socket_open = true := hsk
              rw [accept_callback_fst, if_neg hsk1]
              refine ⟨h1, h2, ?_, h4, h5⟩
              intro ha
              exact absurd (show PendingOp.idle = PendingOp.armed from ha) (by decide)
  | act_connect_complete e =>
      simp only [tcp_step] at hstep
      cases hcpnd : c.m_connect_pending with
      | idle =>
          simp only [connect_complete, hcpnd] at hstep
          exact Option.noConfusion hstep
      | cancelled =>
          simp only [connect_complete, hcpnd] at hstep
          split_ifs at hstep with he
          rw [Option.some.injEq] at hstep
          have hc := congrArg Prod.fst hstep
          dsimp only at hc
          subst hc
          subst he
          by_cases hsk : c.m_socket_open = true
          · have hsk1 : ({ c with m_connect_pending := PendingOp.idle } :
                tcp_connection).m_socket_open = true := hsk
            rw [connect_callback_fst, if_pos hsk1,
               if_neg (by decide : ¬(ErrorCode.operation_aborted = ErrorCode.success))]
            refine ⟨?_, ?_, ?_, ?_, ?_⟩
            · simp only [update_status_fst]
              by_cases hd : tcp_status.DISCONNECTED = c.m_status
              · simp [hd.symm, h1.mpr hd.symm]
              · simp [hd]
            · simp [update_status_fst]
            · intro ha hl hs
              simp only [update_status_fst] at hs
              rw [hs] at hsk
              exact absurd hsk (by decide)
            · simpa [update_status_fst] using h4
            · simp [update_status_fst]
          · have hsk1 : ¬ ({ c with m_connect_pending := PendingOp.idle } :
                tcp_connection).m_socket_open = true := hsk
            rw [connect_callback_fst, if_neg hsk1]
            refine ⟨h1, ?_, h3, h4, ?_⟩
            · intro ha
              exact absurd (show PendingOp.idle = PendingOp.armed from ha) (by decide)
            · intro ha
              exact absurd (show PendingOp.idle = PendingOp.armed from ha) (by decide)
      | armed =>
          simp only [connect_complete, hcpnd] at hstep
          split_ifs at hstep with he
          rw [Option.some.injEq] at hstep
          have hc := congrArg Prod.fst hstep
          dsimp only at hc
          subst hc
          obtain ⟨hpend, hcli⟩ := h2 hcpnd
          by_cases hsk : c.m_socket_open = true
          · by_cases hes : e = ErrorCode.success
            · subst hes
              have hsk1 : ({ c with m_connect_pending := PendingOp.idle } :
                  tcp_connection).m_socket_open = true := hsk
              rw [connect_callback_fst, if_pos hsk1, if_pos rfl]
              refine ⟨?_, ?_, ?_, ?_, ?_⟩ <;>
                simp [update_status_fst, async_rx, hpend, hcli, hsk]
            · have hsk1 : ({ c with m_connect_pending := PendingOp.idle } :
                  tcp_connection).m_socket_open = true := hsk
              rw [connect_callback_fst, if_pos hsk1, if_neg hes]
              refine ⟨?_, ?_, ?_, ?_, ?_⟩
              · simp [update_status_fst, hpend]
              · simp [update_status_fst]
              · intro ha hl hs
                simp only [update_status_fst] at ha hl hs
                have hserv := (h3 ha hl hs).2
                rw [hcli] at hserv
                exact absurd hserv (by decide)
              · simpa [update_status_fst] using h4
              · simp [update_status_fst]
          · have hsk1 : ¬ ({ c with m_connect_pending := PendingOp.idle } :
                tcp_connection).m_socket_open = true := hsk
            rw [connect_callback_fst, if_neg hsk1]
            refine ⟨h1, ?_, h3, h4, ?_⟩
            · intro ha
              exact absurd (show PendingOp.idle = PendingOp.armed from ha) (by decide)
            · intro ha
              exact absurd (show PendingOp.idle = PendingOp.armed from ha) (by decide)
  | act_rx_complete e d =>
      simp only [tcp_step] at hstep
      cases hrp : c.m_rx_pending with
      | idle =>
          simp only [rx_complete, hrp] at hstep
          exact Option.noConfusion hstep
      | cancelled =>
          simp only [rx_complete, hrp] at hstep
          split_ifs at hstep with he
          rw [Option.some.injEq] at hstep
          have hc := congrArg Prod.fst hstep
          dsimp only at hc
          subst hc
          subst he
          by_cases hsk : c.m_socket_open = true
          · have hsk1 : ({ c with m_rx_pending := PendingOp.idle } :
                tcp_connection).m_socket_open = true := hsk
            rw [rx_callback_fst, if_pos hsk1,
               if_neg (by decide : ¬(ErrorCode.operation_aborted = ErrorCode.success)),
               if_neg (by decide : ¬(ErrorCode.operation_aborted = ErrorCode.eof ∨
                 ErrorCode.operation_aborted = ErrorCode.connection_reset ∨
                 ErrorCode.operation_aborted = ErrorCode.connection_aborted))]
            refine ⟨h1, h2, h3, ?_, ?_⟩
            · intro ha
              exact absurd (show PendingOp.idle = PendingOp.armed from ha) (by decide)
            · intro hx hy
              exact absurd (show PendingOp.idle = PendingOp.armed from hy) (by decide)
          · have hsk1 : ¬ ({ c with m_rx_pending := PendingOp.idle } :
                tcp_connection).m_socket_open = true := hsk
            rw [rx_callback_fst, if_neg hsk1]
            refine ⟨h1, h2, h3, ?_, ?_⟩
            · intro ha
              exact absurd (show PendingOp.idle = PendingOp.armed from ha) (by decide)
            · intro hx hy
              exact absurd (show PendingOp.idle = PendingOp.armed from hy) (by decide)
      | armed =>
          simp only [rx_complete, hrp] at hstep
          have hsock : c.m_socket_open = true := h4 hrp
          have hcp : c.m_connect_pending ≠ PendingOp.armed := fun hx => h5 hx hrp
          split_ifs at hstep with hsucc hlen he
          · -- successful read: callback raised, read re-armed
            rw [Option.some.injEq] at hstep
            have hc := congrArg Prod.fst hstep
            dsimp only at hc
            subst hc
            subst hsucc
            have hsk1 : ({ c with m_rx_pending := PendingOp.idle, m_buffer := d ++ c.m_buffer.drop d.length } : tcp_connection).m_socket_open = true := hsock
            rw [rx_callback_fst, if_pos hsk1, if_pos rfl]
            refine ⟨?_, ?_, ?_, ?_, ?_⟩ <;>
              simp [async_rx, h1, hcp, hsock]
          · -- errored read
            rw [Option.some.injEq] at hstep
            have hc := congrArg Prod.fst hstep
            dsimp only at hc
            subst hc
            have hsk1 : ({ c with m_rx_pending := PendingOp.idle } :
                tcp_connection).m_socket_open = true := hsock
            by_cases heof : e = ErrorCode.eof ∨ e = ErrorCode.connection_reset ∨
                e = ErrorCode.connection_aborted
            · rw [rx_callback_fst, if_pos hsk1, if_neg hsucc, if_pos heof]
              refine ⟨?_, ?_, ?_, ?_, ?_⟩
              · simp only [update_status_fst]
                by_cases hd : tcp_status.DISCONNECTED = c.m_status
                · simp [hd.symm, h1.mpr hd.symm]
                · simp [hd]
              · simp [update_status_fst, hcp]
              · intro ha hl hs
                simp only [update_status_fst] at hs
                rw [hs] at hsock
                exact absurd hsock (by decide)
              · intro ha
                simp [update_status_fst] at ha
              · simp [update_status_fst, hcp]
            · rw [rx_callback_fst, if_pos hsk1, if_neg hsucc, if_neg heof]
              refine ⟨h1, h2, h3, ?_, ?_⟩
              · intro ha
                exact absurd (show PendingOp.idle = PendingOp.armed from ha) (by decide)
              · intro hx hy
                exact absurd (show PendingOp.idle = PendingOp.armed from hy) (by decide)

/-- Every reachable tcp_connection state satisfies the invariant. -/
lemma tcpInv_reachable {c : tcp_connection} (h : tcp_reachable c) : tcpInv c := by
  induction h with
  | construct le b => exact tcpInv_mk le b
  | step a hr hs ih => exact tcpInv_step a ih hs

end tcp_connection

namespace tcp_connection

/-- update_status never raises events when called with signal = false. -/
lemma update_status_snd_false (c : tcp_connection) (s : tcp_status) :
    (update_status c s false).2 = [] := by
  by_cases h : s = c.m_status
  · simp [update_status, h]
  · rcases s <;> simp [update_status, h]

end tcp_connection

/-- Claim C1: for every TCP connection whose status is CONNECTED (with the
disconnected callback attached), tx over a send reporting broken_pipe still
returns true; the status transitions to DISCONNECTED, the disconnected
callback is raised, and the role resets to UNASSIGNED. -/
theorem C1_tx_broken_pipe (c : tcp_connection) (data : List Nat)
    (hst : c.m_status = tcp_status.CONNECTED)
    (hcb : c.m_disconnected_callback = true) :
    (c.tx data ErrorCode.broken_pipe).2.2 = true ∧
    (c.tx data ErrorCode.broken_pipe).1.m_status = tcp_status.DISCONNECTED ∧
    (c.tx data ErrorCode.broken_pipe).1.m_role = tcp_role.UNASSIGNED ∧
    (c.tx data ErrorCode.broken_pipe).2.1 =
      [Event.tcp_sent data, Event.disconnected c.m_local_endpoint.port] := by
  refine ⟨?_, ?_, ?_, ?_⟩ <;>
    simp [tcp_connection.tx, tcp_connection.update_status, hst, hcb]

/-- Claim C2: for a TCP read completion with the socket still open: an
eof/connection_reset/connection_aborted error on a connected socket moves the
status to DISCONNECTED, resets the role and raises the disconnected callback;
operation_aborted changes nothing and raises nothing; any other error raises
the fatal runtime error. -/
theorem C2_rx_error_discrimination (c : tcp_connection) (n : Nat)
    (hopen : c.m_socket_open = true) :
    (c.m_status = tcp_status.CONNECTED → c.m_disconnected_callback = true →
      ∀ e, (e = ErrorCode.eof ∨ e = ErrorCode.connection_reset ∨
             e = ErrorCode.connection_aborted) →
        (c.rx_callback e n).1.m_status = tcp_status.DISCONNECTED ∧
        (c.rx_callback e n).1.m_role = tcp_role.UNASSIGNED ∧
        (c.rx_callback e n).2 = [Event.disconnected c.m_local_endpoint.port]) ∧
    (c.rx_callback ErrorCode.operation_aborted n = (c, [])) ∧
    (∀ e, e ≠ ErrorCode.success → e ≠ ErrorCode.eof → e ≠ ErrorCode.connection_reset →
      e ≠ ErrorCode.connection_aborted → e ≠ ErrorCode.operation_aborted →
      c.rx_callback e n = (c, [Event.fatal])) := by
  refine ⟨?_, ?_, ?_⟩
  · intro hst hcb e he
    rcases he with he | he | he <;> subst he <;>
      refine ⟨?_, ?_, ?_⟩ <;>
        simp [tcp_connection.rx_callback, hopen, tcp_connection.update_status, hst, hcb]
  · simp [tcp_connection.rx_callback, hopen]
  · intro e he1 he2 he3 he4 he5
    simp [tcp_connection.rx_callback, hopen, he1, he2, he3, he4, he5]

/-- Claim C3: the operator-initiated disconnect closes acceptor and socket,
leaves the connection DISCONNECTED with role UNASSIGNED (given the
reachable-state invariant that a disconnected connection has no role), and
never raises the disconnected callback. -/
theorem C3_disconnect_silent (c : tcp_connection)
    (hinv : c.m_status = tcp_status.DISCONNECTED → c.m_role = tcp_role.UNASSIGNED) :
    (c.disconnect).1.m_socket_open = false ∧
    (c.disconnect).1.m_acceptor_open = false ∧
    (c.disconnect).1.m_status = tcp_status.DISCONNECTED ∧
    (c.disconnect).1.m_role = tcp_role.UNASSIGNED ∧
    (c.disconnect).2 = [] := by
  refine ⟨?_, ?_, ?_, ?_, ?_⟩
  · simp [tcp_connection.disconnect, tcp_connection.update_status_fst]
  · simp [tcp_connection.disconnect, tcp_connection.update_status_fst]
  · simp [tcp_connection.disconnect, tcp_connection.update_status_fst]
  · simp only [tcp_connection.disconnect, tcp_connection.update_status_fst]
    by_cases hd : tcp_status.DISCONNECTED = c.m_status
    · simp [hd.symm, hinv hd.symm]
    · simp [hd]
  · simp [tcp_connection.disconnect, tcp_connection.update_status_snd_false]

/-- Claim C4: a server-role accept completion carrying an error, with the
socket still open, re-arms the accept and changes neither status nor role and
raises no callback; only an errored connect completion (client role) moves a
pending connection to DISCONNECTED. -/
theorem C4_accept_error_rearm (c : tcp_connection) (e : ErrorCode)
    (hrole : c.m_role = tcp_role.SERVER)
    (hopen : c.m_socket_open = true) (herr : e ≠ ErrorCode.success) :
    (c.accept_callback e).1.m_status = c.m_status ∧
    (c.accept_callback e).1.m_role = c.m_role ∧
    (c.accept_callback e).1.m_accept_pending = PendingOp.armed ∧
    (c.accept_callback e).2 = [] ∧
    (∀ c2 : tcp_connection, c2.m_socket_open = true → c2.m_status = tcp_status.PENDING →
      ∀ e2, e2 ≠ ErrorCode.success →
        (c2.connect_callback e2).1.m_status = tcp_status.DISCONNECTED) := by
  refine ⟨?_, ?_, ?_, ?_, ?_⟩
  · simp [tcp_connection.accept_callback, hopen, herr, tcp_connection.async_accept]
  · simp [tcp_connection.accept_callback, hopen, herr, tcp_connection.async_accept]
  · simp [tcp_connection.accept_callback, hopen, herr, tcp_connection.async_accept]
  · simp [tcp_connection.accept_callback, hopen, herr]
  · intro c2 h2open h2st e2 he2
    simp [tcp_connection.connect_callback, h2open, he2, tcp_connection.update_status_fst]

/-- Claim C6: every TCP completion handler (accept, connect, read) discards a
stale completion delivered after the socket was closed: no state change, no
re-arm, no callback. -/
theorem C6_stale_completion_discarded (c : tcp_connection) (e : ErrorCode) (n : Nat)
    (hclosed : c.m_socket_open = false) :
    c.accept_callback e = (c, []) ∧ c.connect_callback e = (c, []) ∧
    c.rx_callback e n = (c, []) := by
  refine ⟨?_, ?_, ?_⟩ <;>
    simp [tcp_connection.accept_callback, tcp_connection.connect_callback,
      tcp_connection.rx_callback, hclosed]

/-- Claim C7: in every reachable tcp_connection state, the role is UNASSIGNED
exactly when the status is DISCONNECTED. -/
theorem C7_role_unassigned_iff_disconnected (c : tcp_connection)
    (h : tcp_connection.tcp_reachable c) :
    (c.m_role = tcp_role.UNASSIGNED ↔ c.m_status = tcp_status.DISCONNECTED) :=
  (tcp_connection.tcpInv_reachable h).1

/-- Claim C8: start_client returns false and leaves the state unchanged when
the status is not DISCONNECTED; and when a synchronous exception occurs during
socket setup (socket already open, or a setup call throwing), it returns false
with the connection still DISCONNECTED and UNASSIGNED and raises no
callback. -/
theorem C8_start_client_guard_and_rollback (c : tcp_connection) (remote : Endpoint) :
    (c.m_status ≠ tcp_status.DISCONNECTED →
      ∀ th, c.start_client remote th = (c, [], false)) ∧
    (c.m_status = tcp_status.DISCONNECTED → c.m_role = tcp_role.UNASSIGNED →
      ∀ th, (c.m_socket_open = true ∨ th = true) →
        (c.start_client remote th).2.2 = false ∧
        (c.start_client remote th).1.m_status = tcp_status.DISCONNECTED ∧
        (c.start_client remote th).1.m_role = tcp_role.UNASSIGNED ∧
        (c.start_client remote th).2.1 = []) := by
  constructor
  · intro hne th
    simp [tcp_connection.start_client, hne]
  · intro hst hro th hexc
    by_cases hso : c.m_socket_open = true
    · refine ⟨?_, ?_, ?_, ?_⟩ <;>
        simp [tcp_connection.start_client, hst, hso, hro, tcp_connection.update_status]
    · have hth : th = true := by
        rcases hexc with h | h
        · exact absurd h hso
        · exact h
      subst hth
      refine ⟨?_, ?_, ?_, ?_⟩ <;>
        simp [tcp_connection.start_client, hst, hso, hro, tcp_connection.update_status]

/-- Claim C9: a successful receive completion of n bytes with an rx callback
attached hands the callback exactly the first n bytes of the connection's
receive buffer (as a copied value), for both the TCP and the UDP handler. -/
theorem C9_rx_payload_is_buffer_copy (ct : tcp_connection) (cu : udp_connection)
    (n m : Nat) (hopen : ct.m_socket_open = true) (hcb : ct.m_rx_callback = true)
    (hucb : cu.m_rx_callback = true) :
    (ct.rx_callback ErrorCode.success n).2 =
      [Event.rx protocol.TCP ct.m_local_endpoint.port (ct.m_buffer.take n)
        ct.m_remote_address] ∧
    (cu.rx_callback ErrorCode.success m).2 =
      [Event.rx protocol.UDP cu.m_local_endpoint.port (cu.m_buffer.take m)
        cu.m_remote_endpoint.address] := by
  constructor
  · simp [tcp_connection.rx_callback, hopen, hcb]
  · simp [udp_connection.rx_callback, hucb]

/-- Claim C10: a UDP receive completion with no error and no rx callback
attached raises the fatal runtime error and does not re-arm the receive; and
the receive loop is re-armed only when the completion has no error and a
callback is attached. -/
theorem C10_udp_rx_no_callback_fatal (c : udp_connection) (n : Nat)
    (hncb : c.m_rx_callback = false) :
    (c.rx_callback ErrorCode.success n).2 = [Event.fatal] ∧
    (c.rx_callback ErrorCode.success n).1 = c ∧
    (∀ (c2 : udp_connection) e k, (c2.rx_callback e k).1.m_rx_pending = PendingOp.armed →
      c2.m_rx_pending = PendingOp.armed ∨
      (e = ErrorCode.success ∧ c2.m_rx_callback = true)) := by
  refine ⟨?_, ?_, ?_⟩
  · simp [udp_connection.rx_callback, hncb]
  · simp [udp_connection.rx_callback, hncb]
  · intro c2 e k h
    by_cases hc2 : e = ErrorCode.success ∧ c2.m_rx_callback = true
    · exact Or.inr hc2
    · left
      have hfix : (c2.rx_callback e k).1 = c2 := by
        unfold udp_connection.rx_callback
        rw [if_neg hc2]
        split_ifs <;> rfl
      rw [hfix] at h
      exact h

/-- The UDP connection of the C5 analysis: constructed with remote endpoint
(2, 2), rx callback attached, receive loop started. -/
def C5_conn0 : udp_connection :=
  udp_connection.connect
    (udp_connection.attach_rx_callback (udp_connection.mk_connection ⟨1, 1⟩ ⟨2, 2⟩ [0, 0]))

/-- C5_conn0 after one datagram [9] from sender (3, 3) has been received. -/
def C5_conn1 : udp_connection :=
  match udp_connection.rx_complete C5_conn0 ErrorCode.success ⟨3, 3⟩ [9] with
  | some r => r.1
  | none => C5_conn0

/-- Claim C5 counterexample: after a datagram from sender (3, 3) is received
on a connection constructed with remote endpoint (2, 2), tx sends to (3, 3)
and not to the endpoint configured at construction. -/
theorem C5_counterexample_tx_last_sender :
    (C5_conn1.tx [7]).2 = [Event.udp_sent [7] ⟨3, 3⟩] ∧
    ((⟨3, 3⟩ : Endpoint) ≠ (⟨2, 2⟩ : Endpoint)) := by
  constructor
  · rfl
  · decide

/-- Claim C5 amended: tx sends to the connection's CURRENT remote endpoint;
that endpoint equals the one configured at construction only until a datagram
is received, because every successfully delivered receive completion rewrites
it to the sender's endpoint. -/
theorem C5_amended_tx_current_remote (c : udp_connection) (data : List Nat) :
    (c.tx data).2 = [Event.udp_sent data c.m_remote_endpoint] ∧
    (∀ sender rdata c2 evs, c.m_rx_pending = PendingOp.armed →
      udp_connection.rx_complete c ErrorCode.success sender rdata = some (c2, evs) →
      c2.m_remote_endpoint = sender) := by
  constructor
  · rfl
  · intro sender rdata c2 evs hp hcc
    simp only [udp_connection.rx_complete, hp] at hcc
    split_ifs at hcc <;>
      (rw [Option.some.injEq] at hcc
       have hc := congrArg Prod.fst hcc
       dsimp only at hc
       rw [← hc]
       unfold udp_connection.rx_callback
       split_ifs <;> rfl)

/-- A connected TCP client connection with all callbacks attached, used as a
concrete witness state. -/
def sample_connected : tcp_connection :=
  { tcp_connection.mk_connection ⟨0, 5⟩ [0, 0] with m_socket_open := true, m_role := tcp_role.CLIENT, m_status := tcp_status.CONNECTED, m_connected_callback := true, m_disconnected_callback := true, m_rx_callback := true, m_rx_pending := PendingOp.armed }

/-- A listening server-role TCP connection, used as a concrete witness state. -/
def sample_server_pending : tcp_connection :=
  { tcp_connection.mk_connection ⟨0, 6⟩ [0] with m_socket_open := true, m_acceptor_open := true, m_acceptor_listening := true, m_role := tcp_role.SERVER, m_status := tcp_status.PENDING, m_accept_pending := PendingOp.armed, m_disconnected_callback := true }

/-- A connecting client-role TCP connection, used as a concrete witness state. -/
def sample_client_pending : tcp_connection :=
  { tcp_connection.mk_connection ⟨0, 7⟩ [0] with m_socket_open := true, m_role := tcp_role.CLIENT, m_status := tcp_status.PENDING, m_connect_pending := PendingOp.armed, m_disconnected_callback := true }

/-- A freshly constructed TCP connection (socket closed). -/
def sample_closed : tcp_connection :=
  tcp_connection.mk_connection ⟨0, 5⟩ []

/-- A UDP connection with the rx callback attached. -/
def sample_udp : udp_connection :=
  udp_connection.attach_rx_callback (udp_connection.mk_connection ⟨4, 4⟩ ⟨5, 5⟩ [7, 8])

/-- A UDP connection with no rx callback attached. -/
def sample_udp_nocb : udp_connection :=
  udp_connection.mk_connection ⟨4, 4⟩ ⟨5, 5⟩ [1]

/-- Witness for C1 at a concrete connected connection. -/
theorem C1_witness :
    (sample_connected.tx [1, 2] ErrorCode.broken_pipe).2.2 = true ∧
    (sample_connected.tx [1, 2] ErrorCode.broken_pipe).1.m_status = tcp_status.DISCONNECTED ∧
    (sample_connected.tx [1, 2] ErrorCode.broken_pipe).1.m_role = tcp_role.UNASSIGNED ∧
    (sample_connected.tx [1, 2] ErrorCode.broken_pipe).2.1 =
      [Event.tcp_sent [1, 2], Event.disconnected 5] :=
  C1_tx_broken_pipe sample_connected [1, 2] rfl rfl

/-- Witness for C2 at a concrete connected connection. -/
theorem C2_witness :
    (sample_connected.rx_callback ErrorCode.eof 1).1.m_status = tcp_status.DISCONNECTED ∧
    (sample_connected.rx_callback ErrorCode.eof 1).1.m_role = tcp_role.UNASSIGNED ∧
    (sample_connected.rx_callback ErrorCode.eof 1).2 = [Event.disconnected 5] ∧
    sample_connected.rx_callback ErrorCode.operation_aborted 1 = (sample_connected, []) ∧
    sample_connected.rx_callback ErrorCode.other 1 = (sample_connected, [Event.fatal]) := by
  have h := C2_rx_error_discrimination sample_connected 1 rfl
  exact ⟨(h.1 rfl rfl ErrorCode.eof (Or.inl rfl)).1,
    (h.1 rfl rfl ErrorCode.eof (Or.inl rfl)).2.1,
    (h.1 rfl rfl ErrorCode.eof (Or.inl rfl)).2.2,
    h.2.1,
    h.2.2 ErrorCode.other (by decide) (by decide) (by decide) (by decide) (by decide)⟩

/-- Witness for C3 at a concrete connected connection. -/
theorem C3_witness :
    (sample_connected.disconnect).1.m_socket_open = false ∧
    (sample_connected.disconnect).1.m_acceptor_open = false ∧
    (sample_connected.disconnect).1.m_status = tcp_status.DISCONNECTED ∧
    (sample_connected.disconnect).1.m_role = tcp_role.UNASSIGNED ∧
    (sample_connected.disconnect).2 = [] :=
  C3_disconnect_silent sample_connected (by decide)

/-- Witness for C4 at concrete server and client connections. -/
theorem C4_witness :
    (sample_server_pending.accept_callback ErrorCode.other).1.m_status =
      sample_server_pending.m_status ∧
    (sample_server_pending.accept_callback ErrorCode.other).1.m_accept_pending =
      PendingOp.armed ∧
    (sample_server_pending.accept_callback ErrorCode.other).2 = [] ∧
    (sample_client_pending.connect_callback ErrorCode.other).1.m_status =
      tcp_status.DISCONNECTED := by
  have h := C4_accept_error_rearm sample_server_pending ErrorCode.other rfl rfl (by decide)
  exact ⟨h.1, h.2.2.1, h.2.2.2.1,
    h.2.2.2.2 sample_client_pending rfl rfl ErrorCode.other (by decide)⟩

/-- Witness for C6 at a concrete closed-socket connection. -/
theorem C6_witness :
    sample_closed.accept_callback ErrorCode.other = (sample_closed, []) ∧
    sample_closed.connect_callback ErrorCode.other = (sample_closed, []) ∧
    sample_closed.rx_callback ErrorCode.other 0 = (sample_closed, []) :=
  C6_stale_completion_discarded sample_closed ErrorCode.other 0 rfl

/-- Witness for C7 at the freshly constructed (reachable) state. -/
theorem C7_witness :
    ((tcp_connection.mk_connection ⟨0, 5⟩ []).m_role = tcp_role.UNASSIGNED ↔
      (tcp_connection.mk_connection ⟨0, 5⟩ []).m_status = tcp_status.DISCONNECTED) :=
  C7_role_unassigned_iff_disconnected _ (tcp_connection.tcp_reachable.construct ⟨0, 5⟩ [])

/-- Witness for C8: the non-disconnected guard at a pending client, and the
exception rollback at a fresh disconnected connection. -/
theorem C8_witness :
    sample_client_pending.start_client ⟨9, 9⟩ false = (sample_client_pending, [], false) ∧
    (sample_closed.start_client ⟨9, 9⟩ true).2.2 = false ∧
    (sample_closed.start_client ⟨9, 9⟩ true).1.m_status = tcp_status.DISCONNECTED ∧
    (sample_closed.start_client ⟨9, 9⟩ true).1.m_role = tcp_role.UNASSIGNED ∧
    (sample_closed.start_client ⟨9, 9⟩ true).2.1 = [] := by
  have h1 := (C8_start_client_guard_and_rollback sample_client_pending ⟨9, 9⟩).1 (by decide) false
  have h2 := (C8_start_client_guard_and_rollback sample_closed ⟨9, 9⟩).2 rfl rfl true (Or.inr rfl)
  exact ⟨h1, h2.1, h2.2.1, h2.2.2.1, h2.2.2.2⟩

/-- Witness for C9 at concrete TCP and UDP connections. -/
theorem C9_witness :
    (sample_connected.rx_callback ErrorCode.success 1).2 =
      [Event.rx protocol.TCP 5 [0] 0] ∧
    (sample_udp.rx_callback ErrorCode.success 1).2 =
      [Event.rx protocol.UDP 4 [7] 5] :=
  C9_rx_payload_is_buffer_copy sample_connected sample_udp 1 1 rfl rfl rfl

/-- Witness for C10 at a concrete callback-less UDP connection. -/
theorem C10_witness :
    (sample_udp_nocb.rx_callback ErrorCode.success 1).2 = [Event.fatal] ∧
    (sample_udp_nocb.rx_callback ErrorCode.success 1).1 = sample_udp_nocb ∧
    (sample_udp.m_rx_pending = PendingOp.armed ∨
      (ErrorCode.success = ErrorCode.success ∧ sample_udp.m_rx_callback = true)) := by
  have h := C10_udp_rx_no_callback_fatal sample_udp_nocb 1 rfl
  exact ⟨h.1, h.2.1, h.2.2 sample_udp ErrorCode.success 1 rfl⟩

/-- Witness for the amended C5 at the concrete C5 connection. -/
theorem C5_amended_witness :
    (C5_conn0.tx [4]).2 = [Event.udp_sent [4] C5_conn0.m_remote_endpoint] ∧
    C5_conn1.m_remote_endpoint = (⟨3, 3⟩ : Endpoint) := by
  have h := C5_amended_tx_current_remote C5_conn0 [4]
  exact ⟨h.1, h.2 ⟨3, 3⟩ [9] C5_conn1 [Event.rx protocol.UDP 1 [9] 3] rfl rfl⟩
